import Mathlib

/-!
Verification of the SHL assessment recommendation repository: a shallow
embedding of the catalog scraper (scraper.py) and the recommendation engine
(analysis_engine.py), with theorems settling the specification's claims.

Strings are treated as Python strings: sequences of code points, with the
Python-specific operations (strip, find, rfind, slicing, regular-expression
digit search) modelled character by character over List Char.
-/

namespace SHL

set_option maxRecDepth 8000
set_option linter.unusedVariables false

/-- One `{"heading": ..., "text": ...}` section dict built by
extract_details_from_link (scraper.py lines 43-49) and consumed by
_extract_duration / _get_product_text. -/
structure ProductSection where
  heading : String
  text : String
deriving DecidableEq

/-- The product dict built by parse_product_row (scraper.py lines 77-90),
field for field: "Product Type", "Name", "Link", "Remote Testing",
"Adaptive", "Test Types", "Description", "Sections", "Job Family",
"Job Level", "Industry", "Job Category". -/
structure Product where
  ProductType : String
  Name : String
  Link : String
  RemoteTesting : String
  Adaptive : String
  TestTypes : List String
  Description : String
  Sections : List ProductSection
  JobFamily : Option Int
  JobLevel : Option Int
  Industry : Option Int
  JobCategory : Option Int
deriving DecidableEq

/-! ### Python string primitives -/

/-- Python str.strip() whitespace set (ASCII part). -/
def isPySpace (c : Char) : Bool :=
  c = ' ' || c = '\t' || c = '\n' || c = '\x0d' || c = '\x0b' || c = '\x0c'

/-- Python str.strip(): drop leading and trailing whitespace. -/
def pyStrip (cs : List Char) : List Char :=
  ((cs.dropWhile isPySpace).reverse.dropWhile isPySpace).reverse

/-- Python str.find(c): index of the first occurrence, -1 when absent. -/
def pyFind (cs : List Char) (c : Char) : Int :=
  match cs with
  | [] => -1
  | d :: ds =>
    if d = c then 0
    else if pyFind ds c < 0 then -1 else pyFind ds c + 1

/-- Python str.rfind(c): index of the last occurrence, -1 when absent. -/
def pyRfind (cs : List Char) (c : Char) : Int :=
  match cs with
  | [] => -1
  | d :: ds =>
    if 0 ≤ pyRfind ds c then pyRfind ds c + 1
    else if d = c then 0 else -1

/-- Python s[a:b] for 0 ≤ a ≤ b. -/
def pySlice (cs : List Char) (a b : Nat) : List Char :=
  (cs.drop a).take (b - a)

/-- The number denoted by a run of decimal digits (Python int()). -/
def digitsToNat (ds : List Char) : Nat :=
  ds.foldl (fun n c => 10 * n + (c.toNat - 48)) 0

/-! ### Catalog Harvester (scraper.py) -/

def BASE_URL : String := "https://www.shl.com"

/-- get_full_url, scraper.py lines 34-35: prefix BASE_URL when the link
starts with "/", otherwise return it unchanged. -/
def get_full_url (relative_link : String) : String :=
  if relative_link.toList.head? = some '/' then BASE_URL ++ relative_link
  else relative_link

/-- Outcome of the HTTP GET + markup parse attempted inside
extract_details_from_link (scraper.py lines 38-52): either the detail page
as parsed (its h4/p section pairs plus the optional meta-description
content), or the text of the exception any of those steps raised. -/
inductive FetchOutcome where
  | page (metaDescription : Option String) (sections : List ProductSection)
  | raises (err : String)

/-- The dict returned by extract_details_from_link (lines 54 and 56):
description, sections, and on the exception path an "error" entry. -/
structure DetailData where
  description : String
  sections : List ProductSection
  error : Option String
deriving DecidableEq

/-- extract_details_from_link, scraper.py lines 37-56: a successful fetch
yields the page's sections and its meta description (empty when the tag is
absent); any exception degrades to empty description, empty sections and the
error note. -/
def extract_details_from_link : FetchOutcome → DetailData
  | .page md secs => ⟨md.getD "", secs, none⟩
  | .raises e => ⟨"", [], some e⟩

/-- The `<a>` anchor inside a row's title cell: href attribute and text. -/
structure LinkTag where
  href : String
  text : String

/-- The `td.custom__table-heading__title` cell; the anchor may be absent. -/
structure TitleCell where
  link_tag : Option LinkTag

/-- One `td.custom__table-heading__general` cell: whether it contains a
`span.-yes` marker, and the texts of its `span.product-catalogue__key`
children. -/
structure GeneralCell where
  yesSpan : Bool
  keySpans : List String

/-- A `<tr>` of the catalog listing table: its optional title cell and its
list of general cells. -/
structure Row where
  title_td : Option TitleCell
  generalCells : List GeneralCell

/-- parse_product_row, scraper.py lines 58-90. Returns .ok none when the
title cell or its anchor is missing (the row is silently dropped); raises
(models the IndexError, caught by the caller) when fewer than three general
cells exist; otherwise fetches the detail page through `fetch` and builds
the product dict. -/
def parse_product_row (row : Row) (product_type : String)
    (job_family job_level industry job_category : Option Int)
    (fetch : String → FetchOutcome) : Except Unit (Option Product) :=
  match row.title_td with
  | none => .ok none
  | some title_td =>
    match title_td.link_tag with
    | none => .ok none
    | some link_tag =>
      let link := get_full_url (String.mk (pyStrip link_tag.href.toList))
      let name := String.mk (pyStrip link_tag.text.toList)
      match row.generalCells[0]?, row.generalCells[1]?,
            row.generalCells[2]? with
      | some c0, some c1, some c2 =>
        let remote_testing := if c0.yesSpan then "✅" else "✗"
        let adaptive := if c1.yesSpan then "✅" else "✗"
        let test_types := c2.keySpans.map
          (fun s => String.mk (pyStrip s.toList))
        let detail_data := extract_details_from_link (fetch link)
        .ok (some ⟨product_type, name, link, remote_testing, adaptive,
          test_types, detail_data.description, detail_data.sections,
          job_family, job_level, industry, job_category⟩)
      | _, _, _ => .error ()

/-! ### Recommendation engine (analysis_engine.py)

The two outbound boundaries are opaque capabilities: the LLM call is a value
of Except String (List Char) (the exception's text, or the reply), and
json.loads applied to the extracted bracketed span is a function
jsonParse : List Char → Option (List Json) (none when loads raises; the
span always begins with a bracket, so a successful parse yields the
elements of a JSON array). -/

/-- A JSON value as json.loads returns it (dicts as key/value lists). -/
inductive Json where
  | null : Json
  | bool : Bool → Json
  | num : Int → Json
  | str : String → Json
  | arr : List Json → Json
  | obj : List (String × Json) → Json

/-- Whether a JSON value is an object (a Python dict). -/
def Json.isObj : Json → Bool
  | .obj _ => true
  | _ => false

/-- Bool test that `needle` occurs as a contiguous substring of `hay`. -/
def listIsInfixOf (needle hay : List Char) : Bool :=
  match hay with
  | [] => needle.isEmpty
  | _ :: tl => needle.isPrefixOf hay || listIsInfixOf needle tl

/-- Python `key in item` on a JSON value: key membership for a dict,
substring test for a string, element equality against the key for a list,
and a TypeError (modelled as .error) for null, booleans and numbers. -/
def pyContains (item : Json) (key : String) : Except Unit Bool :=
  match item with
  | .obj fields => .ok (fields.any (fun f => f.1 = key))
  | .str s => .ok (listIsInfixOf key.toList s.toList)
  | .arr xs => .ok (xs.any (fun j => match j with
      | .str s => s = key
      | _ => false))
  | _ => .error ()

/-- Python item[key]: dict lookup; a TypeError (.error) on any other value,
and a KeyError (.error) when the key is absent. -/
def pyGetItem (item : Json) (key : String) : Except Unit Json :=
  match item with
  | .obj fields =>
    match fields.find? (fun f => f.1 = key) with
    | some f => .ok f.2
    | none => .error ()
  | _ => .error ()

/-- A `{"name": ..., "url": ...}` entry of the UI-shape result list. -/
structure UIItem where
  name : Json
  url : Json

/-- The validation loop of recommend_assessment (lines 154-160): keep, in
order, the items having both a "name" and a "url" entry, stripped to those
two fields; .error models an exception escaping the loop (the `in` or
indexing operator applied to a non-dict item). -/
def cleanLoop : List Json → Except Unit (List UIItem)
  | [] => .ok []
  | item :: rest =>
    match pyContains item "name" with
    | .error e => .error e
    | .ok hasName =>
      if hasName then
        match pyContains item "url" with
        | .error e => .error e
        | .ok hasUrl =>
          if hasUrl then
            match pyGetItem item "name", pyGetItem item "url" with
            | .ok n, .ok u =>
              match cleanLoop rest with
              | .ok tl => .ok (⟨n, u⟩ :: tl)
              | .error e => .error e
            | .error e, _ => .error e
            | _, .error e => .error e
          else cleanLoop rest
      else cleanLoop rest

/-- The single-item fallback of recommend_assessment when no bracketed span
is found (lines 168-171). -/
def noSuitableFallback : List UIItem :=
  [⟨.str "No suitable assessments found", .str "https://www.shl.com/contact-us/"⟩]

/-- The single-item fallback of recommend_assessment's except branch
(lines 177-180). -/
def errorFallback : List UIItem :=
  [⟨.str "Error retrieving recommendations", .str "https://www.shl.com/contact-us/"⟩]

/-- start_idx of line 145: the index of the first bracket. -/
def jsonSpanStart (cs : List Char) : Int := pyFind cs '['

/-- end_idx of line 146: one past the index of the last closing bracket. -/
def jsonSpanEnd (cs : List Char) : Int := pyRfind cs ']' + 1

/-- json_str of line 149: the slice response_text[start_idx:end_idx]. -/
def jsonSpan (cs : List Char) : List Char :=
  pySlice cs (jsonSpanStart cs).toNat (jsonSpanEnd cs).toNat

/-- recommend_assessment, analysis_engine.py lines 86-180, from the LLM
response on (the sampling and prompt construction only feed the prompt
string; k appears only inside that prompt, so the result does not depend on
it). The function returns json.dumps of the list modelled here. -/
def recommend_assessment (jsonParse : List Char → Option (List Json))
    (k : Nat) (llm : Except String (List Char)) : List UIItem :=
  match llm with
  | .error _ => errorFallback
  | .ok raw =>
    let response_text := pyStrip raw
    if 0 ≤ jsonSpanStart response_text ∧
        jsonSpanStart response_text < jsonSpanEnd response_text then
      match jsonParse (jsonSpan response_text) with
      | none => errorFallback
      | some results =>
        match cleanLoop results with
        | .ok clean_results => clean_results
        | .error _ => errorFallback
    else noSuitableFallback

/-! ### Recommendation Formatter (analysis_engine.py lines 49-83) -/

/-- re.search(r'(\d+)', s): the number denoted by the leftmost maximal run
of digits, or none when s holds no digit. -/
def firstDigitRunL : List Char → Option Nat
  | [] => none
  | c :: cs =>
    if c.isDigit then some (digitsToNat (c :: cs.takeWhile Char.isDigit))
    else firstDigitRunL cs

/-- The loop of _extract_duration (lines 51-57): scan the sections; at each
section headed "Assessment length" whose text holds a digit run, return that
number; fall through to the default 60 otherwise. -/
def durationLoop : List ProductSection → Nat
  | [] => 60
  | sec :: rest =>
    if sec.heading = "Assessment length" then
      match firstDigitRunL sec.text.toList with
      | some n => n
      | none => durationLoop rest
    else durationLoop rest

/-- _extract_duration, lines 49-57. -/
def _extract_duration (p : Product) : Nat :=
  durationLoop p.Sections

/-- _extract_test_types, lines 59-63: the product's list when non-empty,
else the fixed placeholder. -/
def _extract_test_types (p : Product) : List String :=
  if p.TestTypes.isEmpty then ["Knowledge & Skills"] else p.TestTypes

/-- One entry of the API-shape result (the six required fields). -/
structure ApiAssessment where
  url : String
  adaptive_support : String
  description : String
  duration : Nat
  remote_support : String
  test_type : List String
deriving DecidableEq

/-- _extract_product_api_format, lines 74-83; the assessment dict built
inline at lines 275-282 of recommend_assessment_api_format is field-for-field
the same expression. -/
def _extract_product_api_format (p : Product) : ApiAssessment :=
  ⟨p.Link,
   if p.Adaptive = "Yes" then "Yes" else "No",
   p.Description,
   _extract_duration p,
   if p.RemoteTesting = "Yes" then "Yes" else "No",
   _extract_test_types p⟩

/-! ### API-shape service (analysis_engine.py lines 184-301) -/

/-- A word character of the regular-expression metacharacter \b: a letter,
a digit or an underscore. -/
def isWordChar (c : Char) : Bool := c.isAlphanum || c = '_'

/-- Scanner state for findallBoundedNums: outside a digit run (recording
whether the previous character allows a left word boundary) or inside one
(recording whether its left boundary was allowed, and the digits so far in
reverse). -/
inductive ScanState where
  | out (prevOk : Bool)
  | run (good : Bool) (acc : List Char)

/-- The scan behind re.findall(r'\b(\d+)\b', s): emit each maximal digit
run that has a word boundary on both sides, i.e. whose neighbouring
characters (when they exist) are not word characters. A run with a bad
boundary is skipped whole: no proper sub-run can match, because the
boundary between two digits is never a word boundary. -/
def findallGo : ScanState → List Char → List Nat
  | .out _, [] => []
  | .run good acc, [] => if good then [digitsToNat acc.reverse] else []
  | .out prevOk, c :: cs =>
    if c.isDigit then findallGo (.run prevOk [c]) cs
    else findallGo (.out (!isWordChar c)) cs
  | .run good acc, c :: cs =>
    if c.isDigit then findallGo (.run good (c :: acc)) cs
    else if good && !isWordChar c then
      digitsToNat acc.reverse :: findallGo (.out (!isWordChar c)) cs
    else findallGo (.out (!isWordChar c)) cs

/-- re.findall(r'\b(\d+)\b', s) of line 249, each match through int(). -/
def findallBoundedNums (cs : List Char) : List Nat :=
  findallGo (.out true) cs

/-- Index default for list access; never reached on the indices the service
builds, which are all in range by construction. -/
def defaultProduct : Product :=
  ⟨"", "", "", "", "", [], "", [], none, none, none, none⟩

/-- The index-resolution steps of lines 249-260: every matched number,
1-based to 0-based, out-of-range values discarded, first k kept. -/
def resolvedIndices (raw : List Char) (n k : Nat) : List Nat :=
  ((findallBoundedNums (pyStrip raw)).filterMap (fun m =>
    if 1 ≤ m ∧ m - 1 < n then some (m - 1) else none)).take k

/-- The single-item fallback of the API function's except branch
(lines 294-301). -/
def apiErrorFallback (e : String) : List ApiAssessment :=
  [⟨"https://www.shl.com/contact-us/", "No",
    "Error retrieving recommendations: " ++ e, 60, "Yes", ["Error"]⟩]

/-- The `{"recommended_assessments": [...]}` response dict. -/
structure ApiResponse where
  recommended_assessments : List ApiAssessment
deriving DecidableEq

/-- recommend_assessment_api_format, analysis_engine.py lines 184-301, from
the randomly sampled product list and the LLM response on (k enters the
prompt and the truncation; the query only the prompt). -/
def recommend_assessment_api_format (sampled_products : List Product)
    (k : Nat) (llm : Except String (List Char)) : ApiResponse :=
  match llm with
  | .error e => ⟨apiErrorFallback e⟩
  | .ok raw =>
    let indices := resolvedIndices raw sampled_products.length k
    let indices := if indices.isEmpty then
        List.range (min k sampled_products.length)
      else indices
    ⟨indices.map (fun idx =>
      _extract_product_api_format (sampled_products.getD idx defaultProduct))⟩

/-! ### Helper lemmas -/

/-- A bracket-delimited span: an opening bracket strictly before a closing
bracket. -/
def containsSpan (cs : List Char) : Prop :=
  ∃ i j, i < j ∧ cs.get? i = some '[' ∧ cs.get? j = some ']'

theorem pyFind_get (cs : List Char) (c : Char) (h : 0 ≤ pyFind cs c) :
    cs.get? (pyFind cs c).toNat = some c := by
  induction cs with
  | nil => simp [pyFind] at h
  | cons d ds ih =>
    by_cases hd : d = c
    · simp [pyFind, hd]
    · simp only [pyFind, if_neg hd] at h ⊢
      by_cases hr : pyFind ds c < 0
      · rw [if_pos hr] at h
        omega
      · rw [if_neg hr] at h ⊢
        push_neg at hr
        have h1 : (pyFind ds c + 1).toNat = (pyFind ds c).toNat + 1 := by omega
        rw [h1, List.get?_cons_succ]
        exact ih hr

theorem pyFind_le (cs : List Char) (c : Char) (i : Nat)
    (h : cs.get? i = some c) : 0 ≤ pyFind cs c ∧ pyFind cs c ≤ i := by
  induction cs generalizing i with
  | nil => simp at h
  | cons d ds ih =>
    by_cases hd : d = c
    · simp only [pyFind, if_pos hd]
      omega
    · cases i with
      | zero =>
        simp only [List.get?_cons_zero, Option.some.injEq] at h
        exact absurd h hd
      | succ n =>
        rw [List.get?_cons_succ] at h
        obtain ⟨h0, hle⟩ := ih n h
        simp only [pyFind, if_neg hd]
        rw [if_neg (by omega)]
        constructor <;> omega

theorem pyRfind_get (cs : List Char) (c : Char) (h : 0 ≤ pyRfind cs c) :
    cs.get? (pyRfind cs c).toNat = some c := by
  induction cs with
  | nil => simp [pyRfind] at h
  | cons d ds ih =>
    simp only [pyRfind] at h ⊢
    by_cases hr : 0 ≤ pyRfind ds c
    · rw [if_pos hr] at h ⊢
      have h1 : (pyRfind ds c + 1).toNat = (pyRfind ds c).toNat + 1 := by omega
      rw [h1, List.get?_cons_succ]
      exact ih hr
    · rw [if_neg hr] at h ⊢
      by_cases hd : d = c
      · simp [hd]
      · rw [if_neg hd] at h
        omega

theorem pyRfind_ge (cs : List Char) (c : Char) (j : Nat)
    (h : cs.get? j = some c) : (j : Int) ≤ pyRfind cs c := by
  induction cs generalizing j with
  | nil => simp at h
  | cons d ds ih =>
    cases j with
    | zero =>
      have hd : d = c := by simpa using h
      simp only [pyRfind]
      by_cases hr : 0 ≤ pyRfind ds c
      · rw [if_pos hr]
        omega
      · rw [if_neg hr, if_pos hd]
        omega
    | succ n =>
      rw [List.get?_cons_succ] at h
      have hn := ih n h
      have hr : 0 ≤ pyRfind ds c := le_trans (by omega) hn
      simp only [pyRfind, if_pos hr]
      omega

theorem containsSpan_iff (cs : List Char) :
    containsSpan cs ↔
      0 ≤ jsonSpanStart cs ∧ jsonSpanStart cs < jsonSpanEnd cs := by
  constructor
  · rintro ⟨i, j, hij, hi, hj⟩
    obtain ⟨h0, hle⟩ := pyFind_le cs '[' i hi
    have hge := pyRfind_ge cs ']' j hj
    unfold jsonSpanStart jsonSpanEnd
    omega
  · rintro ⟨h0, hlt⟩
    unfold jsonSpanStart at h0
    unfold jsonSpanStart jsonSpanEnd at hlt
    have hf := pyFind_get cs '[' h0
    have hrnn : 0 ≤ pyRfind cs ']' := by omega
    have hr := pyRfind_get cs ']' hrnn
    have hne : pyFind cs '[' ≠ pyRfind cs ']' := by
      intro he
      rw [he] at hf
      have : some '[' = some ']' := hf.symm.trans hr
      simp at this
    exact ⟨(pyFind cs '[').toNat, (pyRfind cs ']').toNat, by omega, hf, hr⟩

instance (cs : List Char) : Decidable (containsSpan cs) :=
  decidable_of_iff' _ (containsSpan_iff cs)

theorem recommend_ok_eq (jp : List Char → Option (List Json)) (k : Nat)
    (raw : List Char) :
    recommend_assessment jp k (.ok raw) =
      if 0 ≤ jsonSpanStart (pyStrip raw) ∧
          jsonSpanStart (pyStrip raw) < jsonSpanEnd (pyStrip raw) then
        match jp (jsonSpan (pyStrip raw)) with
        | none => errorFallback
        | some results =>
          match cleanLoop results with
          | .ok clean_results => clean_results
          | .error _ => errorFallback
      else noSuitableFallback := rfl

theorem recommend_api_ok_eq (sampled : List Product) (k : Nat)
    (raw : List Char) :
    recommend_assessment_api_format sampled k (.ok raw) =
      ⟨(if (resolvedIndices raw sampled.length k).isEmpty then
          List.range (min k sampled.length)
        else resolvedIndices raw sampled.length k).map
        (fun idx =>
          _extract_product_api_format (sampled.getD idx defaultProduct))⟩ := rfl

/-- What the validation loop keeps of one JSON object: both fields present,
stripped to the pair, else nothing. -/
def stripNameUrl : Json → Option UIItem
  | .obj fields =>
    if fields.any (fun f => f.1 = "name") then
      if fields.any (fun f => f.1 = "url") then
        match fields.find? (fun f => f.1 = "name"),
              fields.find? (fun f => f.1 = "url") with
        | some nf, some uf => some ⟨nf.2, uf.2⟩
        | _, _ => none
      else none
    else none
  | _ => none

theorem any_iff_find?_isSome (p : α → Bool) (l : List α) :
    l.any p = true ↔ (l.find? p).isSome = true := by
  induction l with
  | nil => simp
  | cons a l ih =>
    by_cases hp : p a = true <;> simp [List.find?, hp, ih]

theorem cleanLoop_allObj (items : List Json)
    (h : ∀ j ∈ items, j.isObj = true) :
    cleanLoop items = .ok (items.filterMap stripNameUrl) := by
  induction items with
  | nil => rfl
  | cons item rest ih =>
    have hobj : item.isObj = true := h item (List.mem_cons_self _ _)
    have ihr := ih (fun j hj => h j (List.mem_cons_of_mem _ hj))
    match item, hobj with
    | .obj fields, _ =>
      simp only [cleanLoop, pyContains, List.filterMap_cons, stripNameUrl]
      by_cases hn : fields.any (fun f => f.1 = "name") = true
      · by_cases hu : fields.any (fun f => f.1 = "url") = true
        · obtain ⟨nf, hnf⟩ := Option.isSome_iff_exists.mp
            ((any_iff_find?_isSome _ _).mp hn)
          obtain ⟨uf, huf⟩ := Option.isSome_iff_exists.mp
            ((any_iff_find?_isSome _ _).mp hu)
          simp [hn, hu, pyGetItem, hnf, huf, ihr]
        · simp [hn, hu, ihr]
      · simp [hn, ihr]

/-- Whether a section is one the duration loop can stop at: the fixed
heading and a digit somewhere in the text. -/
def sectionQualifies (s : ProductSection) : Bool :=
  decide (s.heading = "Assessment length")
    && (firstDigitRunL s.text.toList).isSome

theorem durationLoop_eq (secs : List ProductSection) :
    durationLoop secs =
      match secs.find? sectionQualifies with
      | some s => (firstDigitRunL s.text.toList).getD 60
      | none => 60 := by
  induction secs with
  | nil => rfl
  | cons sec rest ih =>
    by_cases hh : sec.heading = "Assessment length"
    · rcases hr : firstDigitRunL sec.text.toList with _ | n
      · have hq : sectionQualifies sec = false := by
          unfold sectionQualifies
          rw [hr]
          simp
        rw [List.find?_cons_of_neg _ (by simp [hq])]
        simp only [durationLoop, if_pos hh, hr, ih]
      · have hq : sectionQualifies sec = true := by
          unfold sectionQualifies
          rw [hr]
          simp [hh]
        rw [List.find?_cons_of_pos _ hq]
        simp only [durationLoop, if_pos hh, hr, Option.getD_some]
    · have hq : sectionQualifies sec = false := by
        simp [sectionQualifies, hh]
      rw [List.find?_cons_of_neg _ (by simp [hq])]
      simp only [durationLoop, if_neg hh, ih]

/-! ### Claim C1 — the Yes/No facet mapping against the scraped vocabulary

parse_product_row stores the remote-testing and adaptive facets as the
characters '✅' / '✗' (scraper.py lines 71-72), while the API record
builder tests the stored value against the string "Yes"
(analysis_engine.py lines 78 and 81, likewise 277 and 280). The two
vocabularies are disjoint, so every product scraped with a flag set still
gets adaptive_support = "No" and remote_support = "No". -/

/-- A listing row whose Remote Testing and Adaptive cells both carry the
span.-yes marker. -/
def rowC1 : Row :=
  ⟨some ⟨some ⟨"/solutions/products/product-catalog/view/java-8-new/",
    "Java 8 (New)"⟩⟩,
   [⟨true, []⟩, ⟨true, []⟩, ⟨false, ["K"]⟩]⟩

/-- The product parse_product_row emits for rowC1. -/
def productC1 : Product :=
  ⟨"Individual", "Java 8 (New)",
   "https://www.shl.com/solutions/products/product-catalog/view/java-8-new/",
   "✅", "✅", ["K"], "A Java test.", [], none, none, none, none⟩

/-- C1: a row scraped with both boolean facets set is emitted with the
flags recorded as '✅', and the API-shaped record built for it nevertheless
carries adaptive_support = "No" and remote_support = "No" — the claimed
equivalence (Yes exactly when the flag is set) fails on every scraped
record, because the engine compares against "Yes" while the scraper wrote
'✅'. -/
theorem c1_flag_vocabulary_mismatch :
    parse_product_row rowC1 "Individual" none none none none
      (fun _ => .page (some "A Java test.") []) = .ok (some productC1)
    ∧ productC1.RemoteTesting = "✅" ∧ productC1.Adaptive = "✅"
    ∧ (_extract_product_api_format productC1).adaptive_support = "No"
    ∧ (_extract_product_api_format productC1).remote_support = "No" :=
  ⟨rfl, rfl, rfl, rfl, rfl⟩

/-! ### Claim C2 — graceful fallbacks, and the one empty-result exception -/

/-- A concrete stand-in for json.loads agreeing with it on the input used
below: the two-character text "[]" parses as the empty JSON array. -/
def jsonParseEmpty : List Char → Option (List Json) := fun cs =>
  if cs = "[]".toList then some [] else none

/-- C2 counterexample: the reply "[]" contains a bracketed span, json.loads
accepts it, and recommend_assessment returns the empty list — not a
single-item fallback — so "the returned result list is never empty" is
false as stated. -/
theorem c2_empty_reply_counterexample :
    recommend_assessment jsonParseEmpty 5 (.ok "[]".toList) = [] := rfl

/-- C2 (amended): both services return normally and every failure path
(LLM exception, absent bracketed span, json.loads failure, no valid
indices) produces its fixed single-item fallback; the UI-shape result can
be empty only when a span parses successfully as a JSON array with no valid
items, and the API-shape result is non-empty whenever the sample is
non-empty and k ≥ 1. -/
theorem c2_graceful_fallbacks (jp : List Char → Option (List Json)) (k : Nat)
    (e : String) (raw : List Char) (sampled : List Product) :
    (recommend_assessment jp k (.error e) = errorFallback
      ∧ errorFallback.length = 1 ∧ noSuitableFallback.length = 1)
    ∧ (¬ containsSpan (pyStrip raw) →
        recommend_assessment jp k (.ok raw) = noSuitableFallback)
    ∧ (containsSpan (pyStrip raw) → jp (jsonSpan (pyStrip raw)) = none →
        recommend_assessment jp k (.ok raw) = errorFallback)
    ∧ ((recommend_assessment_api_format sampled k
          (.error e)).recommended_assessments.length = 1)
    ∧ (1 ≤ k → sampled ≠ [] →
        (recommend_assessment_api_format sampled k
          (.ok raw)).recommended_assessments ≠ []) := by
  refine ⟨⟨rfl, rfl, rfl⟩, ?_, ?_, rfl, ?_⟩
  · intro h
    rw [recommend_ok_eq, if_neg (fun hc => h ((containsSpan_iff _).mpr hc))]
  · intro h hp
    rw [recommend_ok_eq, if_pos ((containsSpan_iff _).mp h), hp]
  · intro hk hs
    rw [recommend_api_ok_eq]
    simp only [ne_eq, List.map_eq_nil_iff]
    split
    · have hlen : 0 < sampled.length := List.length_pos.mpr hs
      simp only [List.range_eq_nil]
      omega
    · rename_i hne
      simp only [List.isEmpty_eq_true] at hne
      exact hne

/-! ### Claim C3 — result size against k -/

/-- The reply text used for the C3 counterexample and the C4 witness: a
valid JSON array of three objects, the first with an extraneous field, the
third without a url. -/
def replyTwo : String :=
  "[\x7b\"name\": \"A\", \"url\": \"a\", \"x\": 1\x7d, \x7b\"name\": \"B\", \"url\": \"b\"\x7d, \x7b\"name\": \"C\"\x7d]"

/-- A concrete stand-in for json.loads agreeing with it on replyTwo. -/
def jsonParseTwo : List Char → Option (List Json) := fun cs =>
  if cs = replyTwo.toList then
    some [Json.obj [("name", .str "A"), ("url", .str "a"), ("x", .num 1)],
          Json.obj [("name", .str "B"), ("url", .str "b")],
          Json.obj [("name", .str "C")]]
  else none

/-- C3 counterexample: with k = 1 the UI-shape service returns both items
of a two-item reply — the UI result list is not bounded by k. -/
theorem c3_ui_exceeds_k_counterexample :
    ¬ (recommend_assessment jsonParseTwo 1
        (.ok replyTwo.toList)).length ≤ 1 := by decide

/-- C3 (amended): the API-shape result contains at most k items for every
k ≥ 1; the UI-shape result is not truncated to k (k only enters the prompt
text), as the counterexample shows. -/
theorem c3_api_at_most_k (sampled : List Product) (k : Nat)
    (llm : Except String (List Char)) (hk : 1 ≤ k) :
    (recommend_assessment_api_format sampled k
      llm).recommended_assessments.length ≤ k := by
  match llm with
  | .error e =>
    have h1 : (recommend_assessment_api_format sampled k
        (.error e)).recommended_assessments.length = 1 := rfl
    omega
  | .ok raw =>
    rw [recommend_api_ok_eq]
    simp only [List.length_map]
    split
    · rw [List.length_range]
      exact Nat.min_le_left _ _
    · simp only [resolvedIndices, List.length_take]
      exact Nat.min_le_left _ _

/-- C3 witness: the amended bound at a concrete input. -/
theorem c3_api_at_most_k_witness :
    (recommend_assessment_api_format [] 5
      (.error "boom")).recommended_assessments.length ≤ 5 :=
  c3_api_at_most_k [] 5 (.error "boom") (by decide)

/-! ### Claim C4 — the JSON-array reply, validated and stripped -/

/-- C4: when the stripped reply holds a bracketed span and json.loads
parses that span as a JSON array of objects, recommend_assessment returns
exactly the items exposing both a name and a url field, in their original
order, each stripped to those two fields. -/
theorem c4_valid_array_stripped (jp : List Char → Option (List Json))
    (k : Nat) (raw : List Char) (items : List Json)
    (hspan : containsSpan (pyStrip raw))
    (hparse : jp (jsonSpan (pyStrip raw)) = some items)
    (hobj : ∀ j ∈ items, j.isObj = true) :
    recommend_assessment jp k (.ok raw) = items.filterMap stripNameUrl := by
  rw [recommend_ok_eq, if_pos ((containsSpan_iff _).mp hspan), hparse]
  simp only [cleanLoop_allObj items hobj]

/-- C4 witness: on the three-object reply the service keeps the two items
having both fields, in order, and drops the extraneous "x" field. -/
theorem c4_valid_array_stripped_witness :
    recommend_assessment jsonParseTwo 5 (.ok replyTwo.toList) =
      [⟨Json.str "A", Json.str "a"⟩, ⟨Json.str "B", Json.str "b"⟩] :=
  (c4_valid_array_stripped jsonParseTwo 5 replyTwo.toList
    [Json.obj [("name", .str "A"), ("url", .str "a"), ("x", .num 1)],
     Json.obj [("name", .str "B"), ("url", .str "b")],
     Json.obj [("name", .str "C")]]
    (by decide) rfl (by decide)).trans rfl

/-! ### Claim C5 — index-mode resolution and the word-boundary regex -/

/-- The five-product sample used in the C5 example. -/
def sampledC5 : List Product :=
  [⟨"Individual", "P1", "https://www.shl.com/view/p1/", "✗", "✗", ["K"],
    "d1", [], none, none, none, none⟩,
   ⟨"Individual", "P2", "https://www.shl.com/view/p2/", "✅", "✗", ["P"],
    "d2", [], none, none, none, none⟩,
   ⟨"Individual", "P3", "https://www.shl.com/view/p3/", "✗", "✅", ["A"],
    "d3", [], none, none, none, none⟩,
   ⟨"Individual", "P4", "https://www.shl.com/view/p4/", "✅", "✅", ["B"],
    "d4", [], none, none, none, none⟩,
   ⟨"Individual", "P5", "https://www.shl.com/view/p5/", "✗", "✗", ["S"],
    "d5", [], none, none, none, none⟩]

/-- Scanner for every maximal digit run, with no boundary requirement:
the claim's reading of "extract every run of digits". -/
def digitRunsGo : Option (List Char) → List Char → List Nat
  | none, [] => []
  | some acc, [] => [digitsToNat acc.reverse]
  | none, c :: cs =>
    if c.isDigit then digitRunsGo (some [c]) cs else digitRunsGo none cs
  | some acc, c :: cs =>
    if c.isDigit then digitRunsGo (some (c :: acc)) cs
    else digitsToNat acc.reverse :: digitRunsGo none cs

/-- Every maximal digit run of the text, in order (the claim's rule,
without the \b word boundaries the code's regex demands). -/
def allDigitRuns (cs : List Char) : List Nat := digitRunsGo none cs

/-- The claim's index-resolution rule, stated from its own words: every
run of digits, 1-based to 0-based, out-of-range discarded, first k kept. -/
def claimedIndices (raw : List Char) (n k : Nat) : List Nat :=
  ((allDigitRuns (pyStrip raw)).filterMap (fun m =>
    if 1 ≤ m ∧ m - 1 < n then some (m - 1) else none)).take k

/-- C5 counterexample: on the reply "a1b" the claim's rule (every digit
run) resolves to index 0 and would return one record, but the code's regex
\b(\d+)\b matches nothing (the run is embedded in a word), so the code
takes the no-valid-indices fallback and returns the first five sampled
products instead. -/
theorem c5_embedded_digits_counterexample :
    (recommend_assessment_api_format sampledC5 5
      (.ok "a1b".toList)).recommended_assessments
      ≠ (claimedIndices "a1b".toList sampledC5.length 5).map
          (fun idx =>
            _extract_product_api_format (sampledC5.getD idx defaultProduct)) := by
  decide

/-- C5 (amended): the service extracts every run of digits that stands at
word boundaries (not adjacent to a letter, digit or underscore), converts
each from 1-based to 0-based, discards out-of-range indices and truncates
to the first k; when at least one index survives, the corresponding
products' expanded records are returned in that order. -/
theorem c5_index_mode_resolution (sampled : List Product) (k : Nat)
    (raw : List Char)
    (hne : resolvedIndices raw sampled.length k ≠ []) :
    (recommend_assessment_api_format sampled k
      (.ok raw)).recommended_assessments
      = (resolvedIndices raw sampled.length k).map
          (fun idx =>
            _extract_product_api_format (sampled.getD idx defaultProduct)) := by
  rw [recommend_api_ok_eq]
  rw [if_neg (fun hc => hne (List.isEmpty_eq_true.mp hc))]

/-- C5 witness: the spec's own example — reply "3, 1, 99, 2", a 5-item
sample, k = 5 — resolves to 0-based indices [2, 0, 1] (99 discarded) and
returns those three products' expanded records in that order. -/
theorem c5_index_mode_resolution_witness :
    (recommend_assessment_api_format sampledC5 5
      (.ok "3, 1, 99, 2".toList)).recommended_assessments
      = [_extract_product_api_format (sampledC5.getD 2 defaultProduct),
         _extract_product_api_format (sampledC5.getD 0 defaultProduct),
         _extract_product_api_format (sampledC5.getD 1 defaultProduct)] :=
  (c5_index_mode_resolution sampledC5 5 "3, 1, 99, 2".toList
    (by decide)).trans (by decide)

/-! ### Claim C6 — duration extraction -/

/-- C6: when some section both carries the heading "Assessment length" and
holds a digit run, _extract_duration returns the number of the first digit
run of the first such section; when no section qualifies (no such heading,
or no digits in its text), it returns the fallback 60. -/
theorem c6_duration_extraction (p : Product) :
    (∀ s, p.Sections.find? sectionQualifies = some s →
        _extract_duration p = (firstDigitRunL s.text.toList).getD 60)
    ∧ (p.Sections.find? sectionQualifies = none →
        _extract_duration p = 60) := by
  constructor
  · intro s hs
    unfold _extract_duration
    rw [durationLoop_eq, hs]
  · intro hs
    unfold _extract_duration
    rw [durationLoop_eq, hs]

/-! ### Claim C7 — the no-span fallback -/

/-- C7: a reply whose stripped text holds no opening bracket followed by a
closing bracket makes recommend_assessment return exactly the single-item
"No suitable assessments found" fallback with the fixed contact URL. -/
theorem c7_no_span_no_suitable (jp : List Char → Option (List Json))
    (k : Nat) (raw : List Char) (h : ¬ containsSpan (pyStrip raw)) :
    recommend_assessment jp k (.ok raw) = noSuitableFallback := by
  rw [recommend_ok_eq, if_neg (fun hc => h ((containsSpan_iff _).mpr hc))]

/-- C7 witness: a bracketless reply yields the no-suitable fallback. -/
theorem c7_no_span_no_suitable_witness :
    recommend_assessment jsonParseEmpty 5
      (.ok "I could not find any relevant assessments.".toList)
      = noSuitableFallback :=
  c7_no_span_no_suitable jsonParseEmpty 5
    "I could not find any relevant assessments.".toList (by decide)

/-! ### Claim C8 — the emission invariant and link resolution -/

/-- Bool test that a URL is absolute (carries an http or https scheme). -/
def isAbsoluteUrl (s : String) : Bool :=
  "http://".toList.isPrefixOf s.toList
    || "https://".toList.isPrefixOf s.toList

/-- A row whose title cell and anchor exist but whose href has neither a
leading slash nor a scheme. -/
def rowC8 : Row :=
  ⟨some ⟨some ⟨"detail.html", "Sample Assessment"⟩⟩,
   [⟨false, []⟩, ⟨false, []⟩, ⟨false, []⟩]⟩

/-- The product parse_product_row emits for rowC8. -/
def productC8 : Product :=
  ⟨"Individual", "Sample Assessment", "detail.html", "✗", "✗", [], "", [],
   none, none, none, none⟩

/-- C8 counterexample: the anchor href "detail.html" does not start with
"/", so get_full_url passes it through unchanged and the row is emitted
with the relative Link "detail.html" — not a fully resolved absolute
URL — refuting the claim as stated. -/
theorem c8_relative_link_counterexample :
    parse_product_row rowC8 "Individual" none none none none
      (fun _ => .page none []) = .ok (some productC8)
    ∧ isAbsoluteUrl productC8.Link = false :=
  ⟨rfl, rfl⟩

/-- C8 (amended): a row missing its title cell or its link anchor yields
.ok none (silently dropped, no exception); every emitted record carries the
anchor's stripped text as its Name and get_full_url of the stripped href as
its Link; and get_full_url prefixes the base URL exactly when the href
starts with "/", passing any other href through unchanged (so an href
without a leading slash or scheme stays relative). -/
theorem c8_emission_invariant (row : Row) (pt : String)
    (jf jl ind jc : Option Int) (fetch : String → FetchOutcome) :
    ((row.title_td = none ∨
        (∃ td, row.title_td = some td ∧ td.link_tag = none)) →
      parse_product_row row pt jf jl ind jc fetch = .ok none)
    ∧ (∀ p, parse_product_row row pt jf jl ind jc fetch = .ok (some p) →
        ∃ td tag, row.title_td = some td ∧ td.link_tag = some tag
          ∧ p.Name = String.mk (pyStrip tag.text.toList)
          ∧ p.Link = get_full_url (String.mk (pyStrip tag.href.toList)))
    ∧ (∀ s : String,
        (s.toList.head? = some '/' → get_full_url s = BASE_URL ++ s)
        ∧ (s.toList.head? ≠ some '/' → get_full_url s = s)) := by
  refine ⟨?_, ?_, ?_⟩
  · rintro (h | ⟨td, htd, hlt⟩)
    · simp only [parse_product_row, h]
    · simp only [parse_product_row, htd, hlt]
  · intro p hp
    rcases htd : row.title_td with _ | td
    · simp only [parse_product_row, htd] at hp
      simp at hp
    · rcases hlt : td.link_tag with _ | tag
      · simp only [parse_product_row, htd, hlt] at hp
        simp at hp
      · simp only [parse_product_row, htd, hlt] at hp
        refine ⟨td, tag, rfl, hlt, ?_⟩
        rcases h0 : row.generalCells[0]? with _ | c0
        · rw [h0] at hp
          simp at hp
        · rw [h0] at hp
          rcases h1 : row.generalCells[1]? with _ | c1
          · rw [h1] at hp
            simp at hp
          · rw [h1] at hp
            rcases h2 : row.generalCells[2]? with _ | c2
            · rw [h2] at hp
              simp at hp
            · rw [h2] at hp
              simp only [Except.ok.injEq, Option.some.injEq] at hp
              subst hp
              exact ⟨rfl, rfl⟩
  · intro s
    constructor
    · intro h
      unfold get_full_url
      rw [if_pos h]
    · intro h
      unfold get_full_url
      rw [if_neg h]

/-! ### Claim C9 — detail-fetch failure degradation -/

/-- A well-formed row whose detail fetch will fail. -/
def rowC9 : Row :=
  ⟨some ⟨some ⟨"/view/numerical/", "Numerical Reasoning"⟩⟩,
   [⟨true, []⟩, ⟨false, []⟩, ⟨false, ["N"]⟩]⟩

/-- The product parse_product_row emits for rowC9 when the fetch raises. -/
def productC9 : Product :=
  ⟨"Individual", "Numerical Reasoning",
   "https://www.shl.com/view/numerical/", "✅", "✗", ["N"], "", [],
   none, none, none, none⟩

/-- Every string the emitted record carries, across all its fields. -/
def recordStrings (p : Product) : List String :=
  [p.ProductType, p.Name, p.Link, p.RemoteTesting, p.Adaptive,
   p.Description] ++ p.TestTypes
    ++ p.Sections.map ProductSection.heading
    ++ p.Sections.map ProductSection.text

/-- The error note e is attached to the emitted record: some field of the
record carries it. -/
def errorNoteAttached (p : Product) (e : String) : Prop :=
  e ∈ recordStrings p

instance (p : Product) (e : String) : Decidable (errorNoteAttached p e) :=
  inferInstanceAs (Decidable (e ∈ recordStrings p))

/-- C9 counterexample: when the detail fetch raises "timed out" the row is
still emitted with empty Description and Sections, but no field of the
emitted record carries the error note — the note exists only inside the
fetch helper's return value, refuting "with an error note attached" for
the emitted record. -/
theorem c9_error_note_dropped_counterexample :
    parse_product_row rowC9 "Individual" none none none none
      (fun _ => .raises "timed out") = .ok (some productC9)
    ∧ productC9.Description = "" ∧ productC9.Sections = []
    ∧ ¬ errorNoteAttached productC9 "timed out" :=
  ⟨rfl, rfl, rfl, by decide⟩

/-- C9 (amended): a detail-fetch failure never aborts the row — the record
is still emitted, degraded to an empty description and an empty sections
list; the error note is recorded in the fetch helper's return value
(extract_details_from_link) but is not attached to the emitted record. -/
theorem c9_fetch_failure_degrades (row : Row) (pt : String)
    (jf jl ind jc : Option Int) (fetch : String → FetchOutcome) (e : String)
    (td : TitleCell) (tag : LinkTag) (c0 c1 c2 : GeneralCell)
    (htd : row.title_td = some td) (hlt : td.link_tag = some tag)
    (h0 : row.generalCells[0]? = some c0)
    (h1 : row.generalCells[1]? = some c1)
    (h2 : row.generalCells[2]? = some c2)
    (hf : fetch (get_full_url (String.mk (pyStrip tag.href.toList)))
      = .raises e) :
    ∃ p, parse_product_row row pt jf jl ind jc fetch = .ok (some p)
      ∧ p.Description = "" ∧ p.Sections = []
      ∧ extract_details_from_link (.raises e) = ⟨"", [], some e⟩ := by
  refine ⟨⟨pt, String.mk (pyStrip tag.text.toList),
    get_full_url (String.mk (pyStrip tag.href.toList)),
    (if c0.yesSpan then "✅" else "✗"), (if c1.yesSpan then "✅" else "✗"),
    c2.keySpans.map (fun s => String.mk (pyStrip s.toList)), "", [],
    jf, jl, ind, jc⟩, ?_, rfl, rfl, rfl⟩
  simp only [parse_product_row, htd, hlt, h0, h1, h2, hf,
    extract_details_from_link]

/-- C9 witness: the amended statement at rowC9 with a timed-out fetch. -/
theorem c9_fetch_failure_degrades_witness :
    ∃ p, parse_product_row rowC9 "Individual" none none none none
        (fun _ => .raises "timed out") = .ok (some p)
      ∧ p.Description = "" ∧ p.Sections = []
      ∧ extract_details_from_link (.raises "timed out")
          = ⟨"", [], some "timed out"⟩ :=
  c9_fetch_failure_degrades rowC9 "Individual" none none none none
    (fun _ => .raises "timed out") "timed out"
    ⟨some ⟨"/view/numerical/", "Numerical Reasoning"⟩⟩
    ⟨"/view/numerical/", "Numerical Reasoning"⟩
    ⟨true, []⟩ ⟨false, []⟩ ⟨false, ["N"]⟩ rfl rfl rfl rfl rfl rfl

/-! ### Claim C10 — the two failure sentinels are distinct and disjoint -/

/-- The name string of the first result item (a string sentinel's tag). -/
def headNameStr : List UIItem → String
  | ⟨.str s, _⟩ :: _ => s
  | _ => ""

/-- C10: the two failure sentinels differ, and the outcome of
recommend_assessment is a trichotomy over disjoint, exhaustive conditions:
an LLM exception, a json.loads failure on a present span, or an exception
escaping the validation loop yields the error sentinel; a reply with no
bracketed span yields the no-suitable sentinel, and only that condition
does; and a span whose parse and validation succeed yields the validated
list itself. -/
theorem c10_sentinel_trichotomy (jp : List Char → Option (List Json))
    (k : Nat) :
    noSuitableFallback ≠ errorFallback
    ∧ (∀ e, recommend_assessment jp k (.error e) = errorFallback)
    ∧ (∀ raw, ¬ containsSpan (pyStrip raw) →
        recommend_assessment jp k (.ok raw) = noSuitableFallback)
    ∧ (∀ raw, containsSpan (pyStrip raw) →
        jp (jsonSpan (pyStrip raw)) = none →
        recommend_assessment jp k (.ok raw) = errorFallback)
    ∧ (∀ raw items, containsSpan (pyStrip raw) →
        jp (jsonSpan (pyStrip raw)) = some items →
        cleanLoop items = .error () →
        recommend_assessment jp k (.ok raw) = errorFallback)
    ∧ (∀ raw items clean, containsSpan (pyStrip raw) →
        jp (jsonSpan (pyStrip raw)) = some items →
        cleanLoop items = .ok clean →
        recommend_assessment jp k (.ok raw) = clean) := by
  refine ⟨?_, fun e => rfl, ?_, ?_, ?_, ?_⟩
  · intro h
    exact absurd (congrArg headNameStr h) (by decide)
  · intro raw h
    rw [recommend_ok_eq, if_neg (fun hc => h ((containsSpan_iff _).mpr hc))]
  · intro raw h hp
    rw [recommend_ok_eq, if_pos ((containsSpan_iff _).mp h), hp]
  · intro raw items h hp hc
    rw [recommend_ok_eq, if_pos ((containsSpan_iff _).mp h), hp]
    simp only [hc]
  · intro raw items clean h hp hc
    rw [recommend_ok_eq, if_pos ((containsSpan_iff _).mp h), hp]
    simp only [hc]

end SHL
